import Mathlib

/-
Verification of the Automatic-Timetable-Generation repository.

The repository ships a faculty-facing dashboard component
(src/components/FacultyDashboard.tsx), which is embedded below directly
from its TypeScript source.  The Timetable Generation & Conflict Engine
described by the design document is not present under src/ (the dashboard
only consumes its output), so the engine is modelled from the
specification text, definition by definition, as flagged in the doc
comments.
-/

/-! ## Core engine data model (modelled from the specification) -/

/-- Modelled from the spec: the `Entry` tagged variant over
Empty, Break, Lunch, Class(subjectName, facultyId),
Lab(subjectName, facultyId, batchLabel).  The engine source is not in
the repository snapshot. -/
inductive Entry where
  | Empty : Entry
  | Break : Entry
  | Lunch : Entry
  | Class (subjectName facultyId : String) : Entry
  | Lab (subjectName facultyId batchLabel : String) : Entry
deriving DecidableEq, Repr, Inhabited

/-- Modelled from the spec: a Grid is a 2-D structure indexed by
(day, period); each cell holds exactly one Entry. -/
abbrev Grid := List (List Entry)

/-- Modelled from the spec: the error taxonomy of the engine. -/
inductive EngineError where
  | InvalidSlot : EngineError
  | CellOccupied : EngineError
  | CellNotAssignable : EngineError
  | FacultyConflict (existingSection : Nat) : EngineError
  | NoSuchReservation : EngineError
  | InsufficientStations : EngineError
  | RequirementExceedsCapacity (subjectName : String) : EngineError
  | Infeasible : EngineError
  | ValidationFailed (conflicts : List (Nat × Nat × String × Nat × Nat)) : EngineError
  | RequirementUnmet (sectionIdx : Nat) (subjectName : String) (hoursShort : Int) : EngineError
  | SearchAborted : EngineError
deriving DecidableEq, Repr, Inhabited

/-- Modelled from the spec: a Requirement
(subjectName, facultyId, weeklyHours, isLab, batchCount). -/
structure Requirement where
  subjectName : String
  facultyId : String
  weeklyHours : Nat
  isLab : Bool
  batchCount : Option Nat
deriving DecidableEq, Repr, Inhabited

/-- Modelled from the spec: the identifying fields of one Section
(academicYear, year, branch, courseName, semester, roomNumber). -/
structure SectionInfo where
  academicYear : String
  year : String
  branch : String
  courseName : String
  semester : String
  roomNumber : String
deriving DecidableEq, Repr, Inhabited

/-- Modelled from the spec: a Section as submitted to the generator,
owning its list of Requirements. -/
structure SectionInput where
  info : SectionInfo
  requirements : List Requirement
deriving DecidableEq, Repr, Inhabited

/-- Modelled from the spec: a Section together with its fully populated
weekly Grid, as returned by a successful generation run. -/
structure ScheduledSection where
  info : SectionInfo
  requirements : List Requirement
  grid : Grid
deriving DecidableEq, Repr, Inhabited

/-- Modelled from the spec: the run configuration — grid shape
(days, periods, fixed break/lunch periods) and the configured number of
lab stations. -/
structure Config where
  days : Nat
  periods : Nat
  breakPeriods : List Nat
  lunchPeriod : Nat
  stationCount : Nat
deriving DecidableEq, Repr, Inhabited

/-! ## Slot Grid Model (spec section 4.1) -/

/-- Modelled from the spec: `create(days, periods, breakPeriods,
lunchPeriod)` returns a Grid with all non-break/lunch cells Empty. -/
def createGrid (days periods : Nat) (breakPeriods : List Nat) (lunchPeriod : Nat) : Grid :=
  (List.range days).map fun _ =>
    (List.range periods).map fun p =>
      if p ∈ breakPeriods then Entry.Break
      else if p = lunchPeriod then Entry.Lunch
      else Entry.Empty

/-- Read the cell of a Grid at (day, period); `none` when out of range. -/
def gridGet (g : Grid) (d p : Nat) : Option Entry :=
  (g.get? d).bind fun row => row.get? p

/-- Overwrite the cell of a Grid at (day, period). -/
def gridSet (g : Grid) (d p : Nat) (e : Entry) : Grid :=
  g.set d ((g.getD d []).set p e)

/-- Modelled from the spec: `isOpen(day, period)` returns whether a cell
is Empty. -/
def isOpen (g : Grid) (d p : Nat) : Bool :=
  gridGet g d p == some Entry.Empty

/-- Modelled from the spec: `place(day, period, entry)` fails with
`CellOccupied` if not Empty, `InvalidSlot` if the slot is Break/Lunch. -/
def Grid.place (g : Grid) (d p : Nat) (e : Entry) : Except EngineError Grid :=
  match gridGet g d p with
  | none => .error .InvalidSlot
  | some Entry.Break => .error .InvalidSlot
  | some Entry.Lunch => .error .InvalidSlot
  | some Entry.Empty => .ok (gridSet g d p e)
  | some _ => .error .CellOccupied

/-- Modelled from the spec: `remove(day, period)` resets a Class/Lab cell
to Empty and fails with `CellNotAssignable` on Break/Lunch/Empty cells. -/
def Grid.removeEntry (g : Grid) (d p : Nat) : Except EngineError Grid :=
  match gridGet g d p with
  | some (Entry.Class _ _) => .ok (gridSet g d p Entry.Empty)
  | some (Entry.Lab _ _ _) => .ok (gridSet g d p Entry.Empty)
  | _ => .error .CellNotAssignable

/-! ## Faculty Conflict Index (spec section 4.2) -/

/-- Modelled from the spec: the ConflictIndex maps
(day, period, facultyId) to the Section currently holding that faculty
at that slot. -/
abbrev ConflictIndex := List ((Nat × Nat × String) × Nat)

/-- Modelled from the spec: `reserve(day, period, facultyId, section)`
fails with `FacultyConflict` if that faculty already holds (day, period);
otherwise it records the reservation. -/
def ConflictIndex.reserve (idx : ConflictIndex) (d p : Nat) (f : String) (sec : Nat) :
    Except EngineError ConflictIndex :=
  match idx.lookup (d, p, f) with
  | some s => .error (.FacultyConflict s)
  | none => .ok (((d, p, f), sec) :: idx)

/-- Modelled from the spec: `release(day, period, facultyId)` clears a
reservation and fails with `NoSuchReservation` if absent. -/
def ConflictIndex.release (idx : ConflictIndex) (d p : Nat) (f : String) :
    Except EngineError ConflictIndex :=
  match idx.lookup (d, p, f) with
  | none => .error .NoSuchReservation
  | some _ => .ok (idx.filter fun kv => kv.1 != (d, p, f))

/-! ## Batch Rotation Planner (spec section 4.3) -/

/-- Modelled from the spec: in the round-robin rotation with k batches,
batch i is assigned station (i + weekOffset) mod k. -/
def rotationStation (k i weekOffset : Nat) : Nat :=
  (i + weekOffset) % k

/-- Modelled from the spec: the Batch Rotation Planner — for a lab
Requirement with batchCount = k, produce the full rotation cycle
(weekOffset = 0..k-1, each listing the station of every batch); fails
with `InsufficientStations` if fewer stations than batches are
configured. -/
def rotationPlan (k stationCount : Nat) : Except EngineError (List (List Nat)) :=
  if stationCount < k then .error .InsufficientStations
  else .ok ((List.range k).map fun w => (List.range k).map fun i => rotationStation k i w)

/-! ## Backtracking Assignment Search (spec section 4.4) -/

/-- Modelled from the spec: one work-list item of the search —
a (Section, Requirement, remaining-hours) triple. -/
structure WorkItem where
  sectionIdx : Nat
  req : Requirement
  remaining : Nat
deriving DecidableEq, Repr, Inhabited

/-- Modelled from the spec: the state the search mutates — one Grid per
Section plus the run-scoped ConflictIndex. -/
structure GenState where
  grids : List Grid
  index : ConflictIndex
deriving DecidableEq, Repr, Inhabited

/-- All (day, period) coordinates of a Grid, in the fixed canonical
ordering (day-major, then period). -/
def gridCells (g : Grid) : List (Nat × Nat) :=
  (List.range g.length).flatMap fun d =>
    (List.range (g.getD d []).length).map fun p => (d, p)

/-- The candidate cells of a Grid: the Empty cells, enumerated in the
canonical (day, period) ordering. -/
def emptyCells (g : Grid) : List (Nat × Nat) :=
  (gridCells g).filter fun c => isOpen g c.1 c.2

/-- Modelled from the spec: the constraint measure of the
minimum-remaining-values heuristic — the number of open cells of the
compatible open cells of the Section of the item, given the current
commitments. -/
def compatCount (st : GenState) (w : WorkItem) : Nat :=
  ((emptyCells (st.grids.getD w.sectionIdx [])).filter fun c =>
    (st.index.lookup (c.1, c.2, w.req.facultyId)).isNone).length

/-- Modelled from the spec: select the most-constrained work item
(fewest compatible open slots), ties broken by earliest position. -/
def selectWork (st : GenState) (work : List WorkItem) : Option (WorkItem × List WorkItem) :=
  match work with
  | [] => none
  | w₀ :: _ =>
    let scored := work.enum.map fun iw => (iw.1, compatCount st iw.2)
    let best := scored.foldl (fun acc ic => if ic.2 < acc.2 then ic else acc)
      (0, compatCount st w₀)
    match work.get? best.1 with
    | none => none
    | some w => some (w, work.eraseIdx best.1)

/-- The batch label written into a Lab cell: the rotation weekOffset of
the hour being placed, taken modulo the batch count. -/
def batchLabelFor (w : WorkItem) : String :=
  let k := max (w.req.batchCount.getD 1) 1
  "W" ++ toString ((w.req.weeklyHours - w.remaining) % k)

/-- Modelled from the spec: the transaction of one placement —
`Grid.place` plus `ConflictIndex.reserve`, performed together. -/
def placeEntry (st : GenState) (w : WorkItem) (d p : Nat) : Except EngineError GenState :=
  let g := st.grids.getD w.sectionIdx []
  let e := if w.req.isLab then
      Entry.Lab w.req.subjectName w.req.facultyId (batchLabelFor w)
    else Entry.Class w.req.subjectName w.req.facultyId
  match Grid.place g d p e with
  | .error err => .error err
  | .ok g₂ =>
    match ConflictIndex.reserve st.index d p w.req.facultyId w.sectionIdx with
    | .error err => .error err
    | .ok idx₂ => .ok ⟨st.grids.set w.sectionIdx g₂, idx₂⟩

/-- Modelled from the spec: the depth-first backtracking search.  It
selects the most-constrained item, tries each Empty candidate cell of
its Section in canonical order, recurses with the hour decremented, and
on failure abandons the transaction (backtracking is pure: the previous
state is reused).  Fuel is the total number of hours still to place. -/
def search : Nat → GenState → List WorkItem → Option GenState
  | _, st, [] => some st
  | 0, _, _ => none
  | fuel + 1, st, work =>
    match selectWork st work with
    | none => none
    | some (w, rest) =>
      (emptyCells (st.grids.getD w.sectionIdx [])).findSome? fun c =>
        match placeEntry st w c.1 c.2 with
        | .error _ => none
        | .ok st₂ =>
          let work₂ := if w.remaining ≤ 1 then rest
            else { w with remaining := w.remaining - 1 } :: rest
          search fuel st₂ work₂

/-- Modelled from the spec: flatten all (Section, Requirement,
remaining-hours) triples into the initial work list. -/
def buildWork (secs : List SectionInput) : List WorkItem :=
  secs.enum.flatMap fun is =>
    (is.2.requirements.filter fun r => r.weeklyHours != 0).map fun r =>
      ⟨is.1, r, r.weeklyHours⟩

/-- Total weekly hours requested across all Sections. -/
def totalHours (secs : List SectionInput) : Nat :=
  secs.foldl (fun acc s => acc + s.requirements.foldl (fun a r => a + r.weeklyHours) 0) 0

/-- Modelled from the spec: the fail-fast station precondition — some lab
Requirement has more batches than the configured stations. -/
def insufficientStationsCheck (cfg : Config) (secs : List SectionInput) : Bool :=
  secs.any fun s => s.requirements.any fun r =>
    r.isLab && (match r.batchCount with
      | some k => decide (cfg.stationCount < k)
      | none => false)

/-- Modelled from the spec: the fail-fast capacity precondition — the
first Requirement whose weeklyHours exceeds the open, non-break/lunch
periods of its Section. -/
def capacityCheck (cfg : Config) (secs : List SectionInput) : Option String :=
  secs.findSome? fun s => s.requirements.findSome? fun r =>
    if (emptyCells (createGrid cfg.days cfg.periods cfg.breakPeriods cfg.lunchPeriod)).length
        < r.weeklyHours then some r.subjectName else none

/-! ## Validator (spec section 4.5) -/

/-- The facultyId carried by an Entry; Break/Lunch/Empty carry none. -/
def entryFaculty : Entry → Option String
  | Entry.Class _ f => some f
  | Entry.Lab _ f _ => some f
  | _ => none

/-- The subjectName carried by an Entry; Break/Lunch/Empty carry none. -/
def entrySubject : Entry → Option String
  | Entry.Class s _ => some s
  | Entry.Lab s _ _ => some s
  | _ => none

/-- The faculty assigned by a Grid at (day, period), if any. -/
def facultyAt (g : Grid) (d p : Nat) : Option String :=
  (gridGet g d p).bind entryFaculty

/-- The number of Grid cells whose Entry matches the given subject. -/
def countSubject (g : Grid) (subj : String) : Nat :=
  (g.flatten.filter fun e => entrySubject e == some subj).length

/-- Modelled from the spec: the faculty-collision scan of the Validator —
no two distinct Sections assign the same faculty at the same slot. -/
def noFacultyConflicts (secs : List ScheduledSection) : Bool :=
  (List.range secs.length).all fun i =>
    (List.range secs.length).all fun j =>
      (i == j) ||
        (List.range (secs.getD i default).grid.length).all fun d =>
          (List.range ((secs.getD i default).grid.getD d []).length).all fun p =>
            match facultyAt (secs.getD i default).grid d p,
                facultyAt (secs.getD j default).grid d p with
            | some f, some f₂ => f != f₂
            | _, _ => true

/-- Modelled from the spec: the completeness scan of the Validator — the
placed hours of every Requirement match its weeklyHours exactly. -/
def requirementsMet (secs : List ScheduledSection) : Bool :=
  secs.all fun s => s.requirements.all fun r =>
    countSubject s.grid r.subjectName == r.weeklyHours

/-- Modelled from the spec: the conflict list reported by
`ValidationFailed` — every (day, period, facultyId, sectionA, sectionB)
collision. -/
def conflictList (secs : List ScheduledSection) : List (Nat × Nat × String × Nat × Nat) :=
  (List.range secs.length).flatMap fun i =>
    (List.range secs.length).flatMap fun j =>
      if i < j then
        (gridCells (secs.getD i default).grid).filterMap fun c =>
          match facultyAt (secs.getD i default).grid c.1 c.2,
              facultyAt (secs.getD j default).grid c.1 c.2 with
          | some f, some f₂ => if f = f₂ then some (c.1, c.2, f, i, j) else none
          | _, _ => none
      else []

/-- Modelled from the spec: the first unmet Requirement
(section, subject, hoursShort) reported by `RequirementUnmet`. -/
def firstUnmet (secs : List ScheduledSection) : Option (Nat × String × Int) :=
  secs.enum.findSome? fun is =>
    is.2.requirements.findSome? fun r =>
      if countSubject is.2.grid r.subjectName = r.weeklyHours then none
      else some (is.1, r.subjectName,
        (r.weeklyHours : Int) - (countSubject is.2.grid r.subjectName : Int))

/-- Modelled from the spec: `validate(sections)` re-scans every Grid cell;
fails with `ValidationFailed` on any faculty collision, or
`RequirementUnmet` if placed hours do not match weeklyHours. -/
def validate (secs : List ScheduledSection) : Except EngineError Unit :=
  if noFacultyConflicts secs then
    if requirementsMet secs then .ok ()
    else .error (.RequirementUnmet ((firstUnmet secs).getD (0, "", 0)).1
      ((firstUnmet secs).getD (0, "", 0)).2.1 ((firstUnmet secs).getD (0, "", 0)).2.2)
  else .error (.ValidationFailed (conflictList secs))

/-! ## The generator (spec sections 4.4 and 2) -/

/-- Modelled from the spec: the state at run start — one fresh Grid per
Section and an empty ConflictIndex. -/
def initialState (cfg : Config) (secs : List SectionInput) : GenState :=
  ⟨secs.map fun _ => createGrid cfg.days cfg.periods cfg.breakPeriods cfg.lunchPeriod, []⟩

/-- Pair every Section back with its Grid from the final search state. -/
def assembleOutput (secs : List SectionInput) (st : GenState) : List ScheduledSection :=
  secs.enum.map fun is =>
    ScheduledSection.mk is.2.info is.2.requirements (st.grids.getD is.1 [])

/-- Modelled from the spec: `generate(sections)` — station and capacity
prechecks, fresh Grids and ConflictIndex, backtracking search, then the
Validator re-checks the complete result before it is returned.  Failure
returns a diagnostic, never a partial grid. -/
def generate (cfg : Config) (secs : List SectionInput) :
    Except EngineError (List ScheduledSection) :=
  if insufficientStationsCheck cfg secs then .error .InsufficientStations
  else match capacityCheck cfg secs with
    | some subj => .error (.RequirementExceedsCapacity subj)
    | none =>
      match search (totalHours secs + 1) (initialState cfg secs) (buildWork secs) with
      | none => .error .Infeasible
      | some st =>
        match validate (assembleOutput secs st) with
        | .ok _ => .ok (assembleOutput secs st)
        | .error e => .error e

/-! ## Faculty dashboard (embedded from src/components/FacultyDashboard.tsx) -/

/-- One persisted timetable entry as read by the dashboard; the fields
used in FacultyDashboard.tsx are teacherName, isBreak and isLunch. -/
structure TimetableEntry where
  teacherName : String
  isBreak : Bool
  isLunch : Bool
deriving DecidableEq, Repr, Inhabited

/-- The formData block of a persisted Timetable, as read by the
dashboard (academicYear, year, branch, courseName, semester,
roomNumber). -/
structure TimetableFormData where
  academicYear : String
  year : String
  branch : String
  courseName : String
  semester : String
  roomNumber : String
deriving DecidableEq, Repr, Inhabited

/-- A persisted Timetable as read by the dashboard. -/
structure Timetable where
  id : String
  formData : TimetableFormData
  entries : List TimetableEntry
deriving DecidableEq, Repr, Inhabited

/-- A toast notification as issued through useToast. -/
structure ToastMsg where
  title : String
  description : String
  variant : String
deriving DecidableEq, Repr, Inhabited

/-- The component state of FacultyDashboard (the timetables and
selectedTimetable useState hooks) together with the toasts issued. -/
structure DashboardState where
  timetables : List Timetable
  selectedTimetable : Option Timetable
  toasts : List ToastMsg
deriving DecidableEq, Repr, Inhabited

/-- The toast issued when getTimetablesForFaculty returns nothing
(FacultyDashboard.tsx lines 53-59). -/
def noTimetablesToast (username : String) : ToastMsg :=
  ⟨"No timetables found", "No timetables were found for faculty: " ++ username, "default"⟩

/-- The toast issued when window.open returns null
(FacultyDashboard.tsx lines 87-94). -/
def popupErrorToast : ToastMsg :=
  ⟨"Error", "Could not open print window. Please check your popup settings.", "destructive"⟩

/-- The useEffect body of FacultyDashboard (lines 44-71): when username
is truthy, fetch the timetables of the faculty member, toast when the
list is empty, store the list, and select its first element (or null
when there is none). -/
def loadTimetablesEffect (username : String) (fetch : String → List Timetable)
    (st : DashboardState) : DashboardState :=
  if username = "" then st
  else
    let facultyTimetables := fetch username
    let st₁ := if facultyTimetables.length = 0 then
        { st with toasts := st.toasts ++ [noTimetablesToast username] }
      else st
    let st₂ := { st₁ with timetables := facultyTimetables }
    if 0 < facultyTimetables.length then
      { st₂ with selectedTimetable := facultyTimetables.head? }
    else { st₂ with selectedTimetable := none }

/-- handleSelectTimetable (FacultyDashboard.tsx lines 74-76). -/
def handleSelectTimetable (st : DashboardState) (t : Timetable) : DashboardState :=
  { st with selectedTimetable := some t }

/-- The per-timetable class count displayed by the dashboard
(FacultyDashboard.tsx lines 261-263): entries whose teacherName equals
the username and that are neither break nor lunch. -/
def facultyClassCount (t : Timetable) (username : String) : Nat :=
  (t.entries.filter fun entry =>
    entry.teacherName == username && !entry.isBreak && !entry.isLunch).length

/-- The props handed to the TimetableView component. -/
structure TimetableViewProps where
  timetable : Timetable
  facultyFilter : String
deriving DecidableEq, Repr, Inhabited

/-- The TimetableView element rendered by the dashboard
(FacultyDashboard.tsx lines 300-303): the selected timetable with
facultyFilter set to the username. -/
def facultyTimetableView (selectedTimetable : Timetable) (username : String) :
    TimetableViewProps :=
  ⟨selectedTimetable, username⟩

/-- The observable effects of one handlePrint call. -/
structure PrintOutcome where
  openedWindow : Bool
  wroteDocument : Bool
  toasts : List ToastMsg
deriving DecidableEq, Repr, Inhabited

/-- handlePrint (FacultyDashboard.tsx lines 79-209): early return when no
timetable is selected or the print ref is unavailable; error toast when
window.open is blocked; otherwise the print window is opened and the
document written.  Component state is never modified. -/
def handlePrint (selectedTimetable : Option Timetable)
    (printRefAvailable popupAllowed : Bool) (st : DashboardState) :
    DashboardState × PrintOutcome :=
  if selectedTimetable.isNone || !printRefAvailable then (st, ⟨false, false, []⟩)
  else if !popupAllowed then (st, ⟨false, false, [popupErrorToast]⟩)
  else (st, ⟨true, true, []⟩)

/-! ## Concrete inputs used by the witnesses -/

/-- A small SectionInfo shared by the demonstration inputs. -/
def demoInfo : SectionInfo :=
  ⟨"2024-25", "II", "CSE", "BTech", "1", "101"⟩

/-- A 2-day, 3-period grid with period 1 as break and 2 lab stations. -/
def demoConfig : Config := ⟨2, 3, [1], 1, 2⟩

/-- Two demonstration Sections with disjoint faculty. -/
def demoSections : List SectionInput :=
  [⟨demoInfo, [⟨"M", "F1", 2, false, none⟩, ⟨"P", "F2", 1, false, none⟩]⟩,
   ⟨demoInfo, [⟨"C", "F3", 1, false, none⟩]⟩]

/-- The output of the generator on the demonstration inputs. -/
def demoOut : List ScheduledSection :=
  (generate demoConfig demoSections).toOption.getD []

/-- A Section with a lab Requirement of 3 batches, exceeding the 2
configured stations of demoConfig. -/
def demoLabSections : List SectionInput :=
  [⟨demoInfo, [⟨"LabX", "F9", 2, true, some 3⟩]⟩]

/-- An empty dashboard state. -/
def emptyDash : DashboardState := ⟨[], none, []⟩

/-- A one-entry demonstration timetable. -/
def demoTimetable : Timetable :=
  ⟨"tt1", ⟨"2024-25", "II", "CSE", "BTech", "1", "101"⟩,
   [⟨"F1", false, false⟩, ⟨"", true, false⟩, ⟨"F2", false, false⟩]⟩

/-- The fixed canonical ordering of (day, period) cells: earlier day
first, then earlier period. -/
def cellOrder (a b : Nat × Nat) : Prop :=
  a.1 < b.1 ∨ (a.1 = b.1 ∧ a.2 < b.2)

/-! ## Theorems -/

/-- C7: generate terminates on every input with either a completed
assignment for every Section or a diagnostic outcome; likewise the
backtracking search itself always halts with a completed state or none. -/
theorem generate_total (cfg : Config) (secs : List SectionInput) :
    ((∃ out, generate cfg secs = .ok out) ∨ ∃ e, generate cfg secs = .error e) ∧
    ∀ fuel st work, (∃ st₂, search fuel st work = some st₂) ∨ search fuel st work = none := by
  constructor
  · cases hg : generate cfg secs with
    | ok out => exact Or.inl ⟨out, rfl⟩
    | error e => exact Or.inr ⟨e, rfl⟩
  · intro fuel st work
    cases hs : search fuel st work with
    | some st₂ => exact Or.inl ⟨st₂, rfl⟩
    | none => exact Or.inr rfl

/-- C6: any input holding a lab Requirement whose batchCount exceeds the
configured station count makes generate fail with InsufficientStations;
the precondition is checked before any Grid is built, so no Grid cell is
mutated and the failure exposes no grids. -/
theorem generate_insufficient_stations (cfg : Config) (secs : List SectionInput)
    (h : ∃ s ∈ secs, ∃ r ∈ s.requirements,
      r.isLab = true ∧ cfg.stationCount < r.batchCount.getD 0) :
    generate cfg secs = .error .InsufficientStations := by
  have hc : insufficientStationsCheck cfg secs = true := by
    obtain ⟨s, hs, r, hr, hlab, hlt⟩ := h
    simp only [insufficientStationsCheck, List.any_eq_true, Bool.and_eq_true]
    refine ⟨s, hs, r, hr, hlab, ?_⟩
    cases hk : r.batchCount with
    | none => rw [hk] at hlt; simp at hlt
    | some k => rw [hk] at hlt; simpa using hlt
  unfold generate
  rw [if_pos hc]

/-- Witness for C6: three lab batches against two configured stations. -/
theorem generate_insufficient_stations_witness :
    (∃ s ∈ demoLabSections, ∃ r ∈ s.requirements,
      r.isLab = true ∧ demoConfig.stationCount < r.batchCount.getD 0) ∧
    generate demoConfig demoLabSections = .error .InsufficientStations := by
  refine ⟨?_, generate_insufficient_stations demoConfig demoLabSections ?_⟩ <;> decide

/-- C8: the faculty dashboard filters by the logged-in username — the
displayed class count equals the number of entries whose teacher matches
the username and that are neither break nor lunch, and the rendered
TimetableView receives that username as its facultyFilter. -/
theorem facultyDashboard_filters_by_username (t : Timetable) (username : String) :
    facultyClassCount t username =
      (t.entries.countP fun e =>
        decide (e.teacherName = username ∧ e.isBreak = false ∧ e.isLunch = false)) ∧
    (facultyTimetableView t username).facultyFilter = username := by
  refine ⟨?_, rfl⟩
  unfold facultyClassCount
  rw [List.countP_eq_length_filter]
  congr 1
  apply List.filter_congr
  intro e _
  by_cases h₁ : e.teacherName = username <;>
    cases h₂ : e.isBreak <;> cases h₃ : e.isLunch <;> simp [h₁, h₂, h₃]

/-- C9: after the dashboard fetches the timetables for a non-empty
username, a non-empty result selects its first element and issues no
toast, while an empty result selects null and issues the no-timetables
toast. -/
theorem loadTimetables_selects_first (username : String)
    (fetch : String → List Timetable) (st : DashboardState) (h : username ≠ "") :
    (∀ t rest, fetch username = t :: rest →
      (loadTimetablesEffect username fetch st).selectedTimetable = some t ∧
      (loadTimetablesEffect username fetch st).toasts = st.toasts) ∧
    (fetch username = [] →
      (loadTimetablesEffect username fetch st).selectedTimetable = none ∧
      (loadTimetablesEffect username fetch st).toasts =
        st.toasts ++ [noTimetablesToast username]) := by
  unfold loadTimetablesEffect
  rw [if_neg h]
  constructor
  · intro t rest hf
    rw [hf]
    simp
  · intro hf
    rw [hf]
    simp

/-- Witness for C9 at a concrete username, fetch result and state. -/
theorem loadTimetables_selects_first_witness :
    ("F1" : String) ≠ "" ∧
    (loadTimetablesEffect "F1" (fun _ => [demoTimetable]) emptyDash).selectedTimetable =
      some demoTimetable := by
  have h := loadTimetables_selects_first "F1" (fun _ => [demoTimetable]) emptyDash
    (by decide)
  exact ⟨by decide, (h.1 demoTimetable [] rfl).1⟩

/-- C10: handlePrint returns immediately, opening no window and leaving
all state unchanged, when no timetable is selected or the print ref is
unavailable; it never modifies component state; and a print window is
only opened when a timetable is selected. -/
theorem handlePrint_guard (sel : Option Timetable) (refAvail popup : Bool)
    (st : DashboardState) :
    (sel = none ∨ refAvail = false →
      handlePrint sel refAvail popup st = (st, ⟨false, false, []⟩)) ∧
    (handlePrint sel refAvail popup st).1 = st ∧
    ((handlePrint sel refAvail popup st).2.openedWindow = true → sel ≠ none) := by
  unfold handlePrint
  cases sel <;> cases refAvail <;> cases popup <;> simp

/-- Witness for C10: no timetable selected. -/
theorem handlePrint_guard_witness :
    ((none : Option Timetable) = none ∨ true = false) ∧
    handlePrint none true true emptyDash = (emptyDash, ⟨false, false, []⟩) := by
  have h := handlePrint_guard none true true emptyDash
  exact ⟨Or.inl rfl, h.1 (Or.inl rfl)⟩

theorem pairwise_flatMap_range {α : Type} {n : Nat} {f : Nat → List α} {R : α → α → Prop}
    (h₁ : ∀ i, (f i).Pairwise R)
    (h₂ : ∀ i j, i < j → ∀ x ∈ f i, ∀ y ∈ f j, R x y) :
    ((List.range n).flatMap f).Pairwise R := by
  induction n with
  | zero => simp
  | succ n ih =>
    rw [List.range_succ, List.flatMap_append, List.pairwise_append]
    refine ⟨ih, by simpa using h₁ n, ?_⟩
    intro a ha b hb
    rw [List.mem_flatMap] at ha
    obtain ⟨i, hi, hai⟩ := ha
    rw [List.mem_range] at hi
    simp only [List.flatMap_cons, List.flatMap_nil, List.append_nil] at hb
    exact h₂ i n hi a hai b hb

theorem gridCells_pairwise (g : Grid) : (gridCells g).Pairwise cellOrder := by
  unfold gridCells
  apply pairwise_flatMap_range
  · intro d
    exact List.Pairwise.map _ (fun a b h => Or.inr ⟨rfl, h⟩) (List.pairwise_lt_range _)
  · intro i j hij x hx y hy
    rw [List.mem_map] at hx hy
    obtain ⟨p, -, rfl⟩ := hx
    obtain ⟨q, -, rfl⟩ := hy
    exact Or.inl hij

theorem emptyCells_pairwise (g : Grid) : (emptyCells g).Pairwise cellOrder :=
  List.Pairwise.sublist (List.filter_sublist _) (gridCells_pairwise g)

/-- C4: generate is a pure function of its input — identical Sections,
Requirements, grid shape and ordering yield identical output — and the
candidate cells of every Grid are enumerated in the fixed canonical
(day, period) ordering, realising the earliest-slot tie-break. -/
theorem generate_deterministic (cfg cfg₂ : Config) (secs secs₂ : List SectionInput)
    (hc : cfg = cfg₂) (hs : secs = secs₂) :
    generate cfg secs = generate cfg₂ secs₂ ∧
    ∀ g : Grid, (emptyCells g).Pairwise cellOrder := by
  subst hc hs
  exact ⟨rfl, emptyCells_pairwise⟩

/-- Witness for C4 on the demonstration input. -/
theorem generate_deterministic_witness :
    demoConfig = demoConfig ∧ demoSections = demoSections ∧
    generate demoConfig demoSections = generate demoConfig demoSections := by
  have h := generate_deterministic demoConfig demoConfig demoSections demoSections rfl rfl
  exact ⟨rfl, rfl, h.1⟩

theorem rotationStation_inj_week {k i w₁ w₂ : Nat} (h₁ : w₁ < k) (h₂ : w₂ < k)
    (h : rotationStation k i w₁ = rotationStation k i w₂) : w₁ = w₂ := by
  unfold rotationStation at h
  have hm : w₁ ≡ w₂ [MOD k] := Nat.ModEq.add_left_cancel' i h
  rw [Nat.ModEq, Nat.mod_eq_of_lt h₁, Nat.mod_eq_of_lt h₂] at hm
  exact hm

theorem rotationStation_inj_batch {k i₁ i₂ w : Nat} (h₁ : i₁ < k) (h₂ : i₂ < k)
    (h : rotationStation k i₁ w = rotationStation k i₂ w) : i₁ = i₂ := by
  unfold rotationStation at h
  have hm : i₁ ≡ i₂ [MOD k] := Nat.ModEq.add_right_cancel' w h
  rw [Nat.ModEq, Nat.mod_eq_of_lt h₁, Nat.mod_eq_of_lt h₂] at hm
  exact hm

theorem rotationStation_exists_week {k i st : Nat} (_hi : i < k) (hst : st < k) :
    (st + k - i % k) % k < k ∧ rotationStation k i ((st + k - i % k) % k) = st := by
  have hk : 0 < k := Nat.lt_of_le_of_lt (Nat.zero_le _) hst
  have hj : i % k < k := Nat.mod_lt _ hk
  refine ⟨Nat.mod_lt _ hk, ?_⟩
  unfold rotationStation
  have h₁ : i + (st + k - i % k) % k ≡ i % k + (st + k - i % k) [MOD k] :=
    Nat.ModEq.add (Nat.mod_modEq i k).symm (Nat.mod_modEq _ k)
  have h₂ : i % k + (st + k - i % k) = st + k := by
    have hjk : i % k ≤ k := le_of_lt hj
    omega
  have h₃ : i + (st + k - i % k) % k ≡ st [MOD k] := by
    calc i + (st + k - i % k) % k ≡ i % k + (st + k - i % k) [MOD k] := h₁
      _ = st + k := h₂
      _ ≡ st [MOD k] := Nat.add_mod_right st k
  rw [Nat.ModEq, Nat.mod_eq_of_lt hst] at h₃
  exact h₃

/-- C5: the Batch Rotation Planner with k batches and stationCount at
least k succeeds with the round-robin cycle assigning batch i to station
(i + weekOffset) mod k for weekOffset = 0..k-1; each batch visits each
station exactly once over the cycle, and no two batches share a
(station, weekOffset) pair. -/
theorem rotationPlan_round_robin (k s : Nat) (hks : k ≤ s) :
    rotationPlan k s =
      .ok ((List.range k).map fun w => (List.range k).map fun i => rotationStation k i w) ∧
    (∀ i w, rotationStation k i w = (i + w) % k) ∧
    (∀ i st, i < k → st < k → ∃ w, (w < k ∧ rotationStation k i w = st) ∧
      ∀ w₂, w₂ < k → rotationStation k i w₂ = st → w₂ = w) ∧
    (∀ i₁ i₂ w, i₁ < k → i₂ < k →
      rotationStation k i₁ w = rotationStation k i₂ w → i₁ = i₂) := by
  refine ⟨?_, fun i w => rfl, ?_, ?_⟩
  · unfold rotationPlan
    rw [if_neg (Nat.not_lt.mpr hks)]
  · intro i st hi hst
    obtain ⟨hw, heq⟩ := rotationStation_exists_week hi hst
    exact ⟨_, ⟨hw, heq⟩, fun w₂ hw₂ h₂ => rotationStation_inj_week hw₂ hw (h₂.trans heq.symm)⟩
  · intro i₁ i₂ w h₁ h₂ h
    exact rotationStation_inj_batch h₁ h₂ h

/-- Witness for C5 with two batches and three stations. -/
theorem rotationPlan_round_robin_witness :
    2 ≤ 3 ∧ rotationPlan 2 3 = .ok [[0, 1], [1, 0]] := by
  have h := rotationPlan_round_robin 2 3 (by decide)
  refine ⟨by decide, ?_⟩
  rw [h.1]
  rfl

theorem generate_ok_validate {cfg : Config} {secs : List SectionInput}
    {out : List ScheduledSection} (h : generate cfg secs = .ok out) :
    validate out = .ok () := by
  unfold generate at h
  split at h
  · exact absurd h (by simp)
  · split at h
    · exact absurd h (by simp)
    · split at h
      · exact absurd h (by simp)
      · split at h
        · rename_i st hv u heq
          injection h with h₂
          subst h₂
          cases u
          exact heq
        · exact absurd h (by simp)

theorem validate_ok_noConflicts {secs : List ScheduledSection}
    (h : validate secs = .ok ()) : noFacultyConflicts secs = true := by
  unfold validate at h
  by_cases hc : noFacultyConflicts secs = true
  · exact hc
  · rw [if_neg hc] at h
    exact absurd h (by simp)

theorem validate_ok_requirements {secs : List ScheduledSection}
    (h : validate secs = .ok ()) : requirementsMet secs = true := by
  unfold validate at h
  by_cases hc : noFacultyConflicts secs = true
  · rw [if_pos hc] at h
    by_cases hr : requirementsMet secs = true
    · exact hr
    · rw [if_neg hr] at h
      exact absurd h (by simp)
  · rw [if_neg hc] at h
    exact absurd h (by simp)

theorem facultyAt_bounds {g : Grid} {d p : Nat} {f : String}
    (h : facultyAt g d p = some f) :
    d < g.length ∧ p < (g.getD d []).length := by
  unfold facultyAt gridGet at h
  rw [Option.bind_eq_some] at h
  obtain ⟨e, he, -⟩ := h
  rw [Option.bind_eq_some] at he
  obtain ⟨row, hrow, hp⟩ := he
  obtain ⟨hd, -⟩ := List.get?_eq_some.mp hrow
  obtain ⟨hp₂, -⟩ := List.get?_eq_some.mp hp
  refine ⟨hd, ?_⟩
  rw [List.getD_eq_getElem?_getD, ← List.get?_eq_getElem?, hrow]
  exact hp₂

theorem noConflicts_spec {secs : List ScheduledSection}
    (h : noFacultyConflicts secs = true) (i j d p : Nat) (f : String)
    (hi : i < secs.length) (hj : j < secs.length) (hij : i ≠ j) :
    ¬(facultyAt (secs.getD i default).grid d p = some f ∧
      facultyAt (secs.getD j default).grid d p = some f) := by
  rintro ⟨hfi, hfj⟩
  unfold noFacultyConflicts at h
  simp only [List.all_eq_true, List.mem_range, Bool.or_eq_true, beq_iff_eq] at h
  obtain ⟨hd, hp⟩ := facultyAt_bounds hfi
  rcases h i hi j hj with h₂ | h₂
  · exact hij h₂
  · have h₃ := h₂ d hd p hp
    rw [hfi, hfj] at h₃
    simp at h₃

theorem requirementsMet_spec {secs : List ScheduledSection}
    (h : requirementsMet secs = true) :
    ∀ s ∈ secs, ∀ r ∈ s.requirements,
      countSubject s.grid r.subjectName = r.weeklyHours := by
  simp only [requirementsMet, List.all_eq_true, beq_iff_eq] at h
  exact h

/-- C1: on every successful run of generate, no faculty member is
double-booked — for every (day, period, facultyId) triple, at most one
of the returned Sections assigns that faculty at that slot. -/
theorem generate_no_double_booking (cfg : Config) (secs : List SectionInput)
    (out : List ScheduledSection) (h : generate cfg secs = .ok out) :
    ∀ d p f i j, i < out.length → j < out.length → i ≠ j →
      ¬(facultyAt (out.getD i default).grid d p = some f ∧
        facultyAt (out.getD j default).grid d p = some f) := by
  have hn := validate_ok_noConflicts (generate_ok_validate h)
  intro d p f i j hi hj hij
  exact noConflicts_spec hn i j d p f hi hj hij

/-- Witness for C1: a successful two-Section run, checked at slot (0,0)
for faculty F1 between the two Sections. -/
theorem generate_no_double_booking_witness :
    generate demoConfig demoSections = .ok demoOut ∧
    ¬(facultyAt (demoOut.getD 0 default).grid 0 0 = some "F1" ∧
      facultyAt (demoOut.getD 1 default).grid 0 0 = some "F1") := by
  refine ⟨rfl, ?_⟩
  exact generate_no_double_booking demoConfig demoSections demoOut rfl 0 0 "F1" 0 1
    (by decide) (by decide) (by decide)

/-- C2: on every successful run of generate, every Requirement of every
Section is met exactly — the count of Grid cells whose Entry matches the
subject of the Requirement equals its weeklyHours. -/
theorem generate_requirements_complete (cfg : Config) (secs : List SectionInput)
    (out : List ScheduledSection) (h : generate cfg secs = .ok out) :
    ∀ s ∈ out, ∀ r ∈ s.requirements,
      countSubject s.grid r.subjectName = r.weeklyHours :=
  requirementsMet_spec (validate_ok_requirements (generate_ok_validate h))

/-- Witness for C2: the demonstration Section requires 2 hours of M and
its generated Grid holds exactly 2 matching cells. -/
theorem generate_requirements_complete_witness :
    generate demoConfig demoSections = .ok demoOut ∧
    countSubject (demoOut.getD 0 default).grid "M" = 2 := by
  refine ⟨rfl, ?_⟩
  exact generate_requirements_complete demoConfig demoSections demoOut rfl
    (demoOut.getD 0 default) (by decide) ⟨"M", "F1", 2, false, none⟩ (by decide)

/-- C3: validation accepts every successful generation result —
validate applied to the output of a successful generate returns ok,
never ValidationFailed or RequirementUnmet. -/
theorem validate_accepts_generate (cfg : Config) (secs : List SectionInput)
    (out : List ScheduledSection) (h : generate cfg secs = .ok out) :
    validate out = .ok () :=
  generate_ok_validate h

/-- Witness for C3 on the demonstration run. -/
theorem validate_accepts_generate_witness :
    generate demoConfig demoSections = .ok demoOut ∧ validate demoOut = .ok () :=
  ⟨rfl, validate_accepts_generate demoConfig demoSections demoOut rfl⟩
